import Mathlib

/-!
Verification of the priority-living-cli durable offline queue and agent worker
(src/priority_living/offline_queue.py and src/priority_living/agents.py),
shallowly embedded in Lean 4.

Modelling conventions:
* The on-disk queue file is a `QueueFile` value: absent, present-but-unparseable
  (json.load raises), or a parsed list of entries.
* Network calls are external events; each call site receives its outcome
  (success or a raised exception) as an explicit argument or oracle.
* Python exception dispatch is modelled faithfully: an `except` clause catches a
  raised exception when the exception class is a subclass of a listed class, and
  clauses are tried in textual order.  Per the Python standard library
  documentation, urllib.error.HTTPError is a subclass of urllib.error.URLError,
  and URLError is a subclass of OSError.  Hence a clause
  `except (urllib.error.URLError, OSError)` also catches every HTTPError.
* Machine integers do not appear; queue lengths and HTTP codes are Nat,
  process exit codes are Int.
-/

namespace PriorityLiving

/-- Exceptions that the try-blocks of offline_queue.py can observe from a
request attempt.  `httpError code` is urllib.error.HTTPError with the given
HTTP status code; `urlError` is a urllib.error.URLError that is not an
HTTPError (transport-level connectivity failure); `osError` is an OSError that
is not a URLError; `otherExc` is any other exception (all remaining exceptions
reaching the `except Exception` clauses, e.g. a TypeError from json.dumps). -/
inductive PyExc where
  | httpError (code : Nat)
  | urlError
  | osError
  | otherExc
deriving DecidableEq

/-- Class test for the clause `except (urllib.error.URLError, OSError)`.
HTTPError is a subclass of URLError, and URLError of OSError, so all of
httpError, urlError and osError match this clause. -/
def PyExc.isURLErrorOrOSError : PyExc → Bool
  | .httpError _ => true
  | .urlError => true
  | .osError => true
  | .otherExc => false

/-- Class test for the clause `except urllib.error.HTTPError`. -/
def PyExc.isHTTPError : PyExc → Bool
  | .httpError _ => true
  | _ => false

/-- Python values carried as request payloads (the `data` argument), as far as
the queue code observes them: it only tests truthiness (`if data:`) and passes
the value through json.dumps.  Floats are not modelled (no claim needs them). -/
inductive PyVal where
  | pyNone
  | pyBool (b : Bool)
  | pyInt (n : Int)
  | pyStr (s : String)
  | pyList (elems : List PyVal)
  | pyDict (pairs : List (String × PyVal))

/-- Python truthiness of a payload value: None, False, 0, empty string, empty
list and empty dict are falsy, everything else is truthy. -/
def PyVal.truthy : PyVal → Bool
  | .pyNone => false
  | .pyBool b => b
  | .pyInt n => decide (n ≠ 0)
  | .pyStr s => decide (s ≠ "")
  | .pyList es => !es.isEmpty
  | .pyDict ps => !ps.isEmpty

/-- One queued request, the dict built in `enqueue` (offline_queue.py lines
37-42): endpoint, payload, HTTP method and the enqueue timestamp string.  The
payload type is a parameter; the drain code compares entries with Python
equality (list.index), so it is required to be decidable where needed. -/
structure Entry (δ : Type) where
  endpoint : String
  data : δ
  method : String
  queued_at : String
deriving DecidableEq

/-- State of the on-disk queue file `~/.priority-living/offline_queue.json`:
missing, present but unparseable by json.load, or a parsed entry list. -/
inductive QueueFile (δ : Type) where
  | absent
  | corrupt
  | good (entries : List (Entry δ))
deriving DecidableEq

/-- Model of `_load_queue` (offline_queue.py lines 16-24): a missing file gives
the empty list, a file whose contents raise inside json.load gives the empty
list via the `except Exception` clause, otherwise the parsed list. -/
def load_queue : QueueFile δ → List (Entry δ)
  | .absent => []
  | .corrupt => []
  | .good q => q

/-- Model of `_save_queue` (offline_queue.py lines 27-31): the file now holds
exactly the given list. -/
def save_queue (q : List (Entry δ)) : QueueFile δ :=
  .good q

/-- Capacity bound MAX_QUEUE_SIZE (offline_queue.py line 13). -/
def MAX_QUEUE_SIZE : Nat := 500

/-- Model of `enqueue` (offline_queue.py lines 34-50): load the queue, append
the new entry (with the current timestamp `now`), drop the oldest entries if
the size exceeds MAX_QUEUE_SIZE, save. -/
def enqueue (qf : QueueFile δ) (endpoint : String) (data : δ) (method : String)
    (now : String) : QueueFile δ :=
  let queue := load_queue qf ++ [⟨endpoint, data, method, now⟩]
  let queue2 :=
    if queue.length > MAX_QUEUE_SIZE then
      queue.drop (queue.length - MAX_QUEUE_SIZE)
    else queue
  save_queue queue2

/-- Outcome of one replay attempt inside the drain loop: `urlopen` succeeded,
or the try-block raised the given exception. -/
inductive AttemptResult where
  | ok
  | raise (e : PyExc)
deriving DecidableEq

/-- Model of Python `list.index`: position of the first element equal to `a`
(the source only calls it with an element of the list, so the out-of-range
value for an absent element is never reached). -/
def pyIndex [DecidableEq α] : List α → α → Nat
  | [], _ => 0
  | x :: rest, a => if x = a then 0 else pyIndex rest a + 1

/-- Loop body of `try_drain_queue` (offline_queue.py lines 62-88).  `queue` is
the full loaded list (referenced by the slicing expression
`queue[queue.index(entry) + 1:]`), `pending` the entries not yet iterated,
`k` the index of the current attempt for the outcome oracle, `remaining` and
`drained` the accumulators.  Dispatch on a raised exception follows Python
clause order: `except (URLError, OSError)` first — which also catches every
HTTPError, since HTTPError subclasses URLError — then `except HTTPError`
(consequently unreachable for real exceptions, modelled anyway), then
`except Exception`. -/
def drainGo [DecidableEq δ] (oracle : Nat → AttemptResult) (queue : List (Entry δ)) :
    List (Entry δ) → Nat → List (Entry δ) → Nat → List (Entry δ) × Nat
  | [], _, remaining, drained => (remaining, drained)
  | e :: pending, k, remaining, drained =>
    match oracle k with
    | .ok => drainGo oracle queue pending (k + 1) remaining (drained + 1)
    | .raise exc =>
      if exc.isURLErrorOrOSError then
        -- lines 75-79: keep this entry and everything after its first
        -- occurrence in the full queue, then break
        (remaining ++ e :: queue.drop (pyIndex queue e + 1), drained)
      else if exc.isHTTPError then
        -- lines 80-86 (dead code under real Python dispatch)
        match exc with
        | .httpError code =>
          if code ≥ 500 then
            drainGo oracle queue pending (k + 1) (remaining ++ [e]) drained
          else
            drainGo oracle queue pending (k + 1) remaining (drained + 1)
        | _ => drainGo oracle queue pending (k + 1) (remaining ++ [e]) drained
      else
        -- lines 87-88
        drainGo oracle queue pending (k + 1) (remaining ++ [e]) drained

/-- Model of `try_drain_queue` (offline_queue.py lines 53-92).  Returns the
queue file after the call together with the drained counter.  When the loaded
queue is empty the function returns before `_save_queue`, leaving the file
untouched. -/
def try_drain_queue [DecidableEq δ] (oracle : Nat → AttemptResult)
    (qf : QueueFile δ) : QueueFile δ × Nat :=
  let queue := load_queue qf
  if queue.isEmpty then (qf, 0)
  else
    let r := drainGo oracle queue queue 0 [] 0
    (save_queue r.1, r.2)

/-- Outcome of the try-block of `resilient_request` (offline_queue.py lines
108-115): the request plus response decoding succeeded with the given decoded
value, or some step raised the given exception. -/
inductive ReqAttempt where
  | ok (resp : PyVal)
  | raise (e : PyExc)

/-- Observable result of one `resilient_request` call: the returned value,
whether the outgoing request carried a body (lines 109-113 attach a body only
when `data` is truthy), and the queue file afterwards. -/
structure RRResult where
  response : Option PyVal
  bodySent : Bool
  queueAfter : QueueFile PyVal

/-- Model of `resilient_request` (offline_queue.py lines 95-131).  Exception
dispatch follows Python clause order: `except (URLError, OSError)` first —
which also catches every HTTPError — then `except HTTPError` (unreachable),
then `except Exception`.  Each enqueueing branch is guarded by `if data:`
(truthiness). -/
def resilient_request (endpoint : String) (data : PyVal) (method : String)
    (attempt : ReqAttempt) (now : String) (qf : QueueFile PyVal) : RRResult :=
  let bodySent := data.truthy
  match attempt with
  | .ok resp => ⟨some resp, bodySent, qf⟩
  | .raise exc =>
    if exc.isURLErrorOrOSError then
      -- lines 116-120
      ⟨none, bodySent, if data.truthy then enqueue qf endpoint data method now else qf⟩
    else if exc.isHTTPError then
      -- lines 121-126 (dead code under real Python dispatch)
      match exc with
      | .httpError code =>
        ⟨none, bodySent,
          if code ≥ 500 ∧ data.truthy then enqueue qf endpoint data method now else qf⟩
      | _ => ⟨none, bodySent, if data.truthy then enqueue qf endpoint data method now else qf⟩
    else
      -- lines 127-131
      ⟨none, bodySent, if data.truthy then enqueue qf endpoint data method now else qf⟩

/-! Embedding of agents.py: the liveness marker check and the task executor. -/

/-- Status of a process id as seen by `os.kill(pid, 0)`: no process with that
id exists (os.kill raises ProcessLookupError), a live process exists and the
caller may signal it (os.kill returns), or a live process exists but the
caller lacks permission to signal it (os.kill raises PermissionError). -/
inductive ProcStatus where
  | notExists
  | liveOwned
  | liveOther
deriving DecidableEq

/-- Python strings handled by the executor and the pid parser are modelled as
character lists. -/
abbrev PyStr := List Char

/-- Whitespace test used by the model of str.strip. -/
def isPySpace (c : Char) : Bool :=
  c = ' ' || c = '\t' || c = '\n' || c = '\r' || c = '\x0b' || c = '\x0c'

/-- Model of Python str.strip(): remove leading and trailing whitespace. -/
def pyStrip (s : PyStr) : PyStr :=
  ((s.dropWhile isPySpace).reverse.dropWhile isPySpace).reverse

/-- Value of a nonempty all-digit string, most significant digit first;
none otherwise. -/
def digitsVal (cs : List Char) : Option Nat :=
  if cs = [] || !cs.all Char.isDigit then none
  else some (cs.foldl (fun acc c => acc * 10 + (c.toNat - 48)) 0)

/-- Model of `int(s.strip())` as applied to a pid marker file: strip
whitespace, then parse an optionally signed decimal numeral; `none` means
int() raises ValueError.  (Python int() also accepts underscores between
digits; marker files are written as str(os.getpid()), a plain numeral, so
that case is not modelled.) -/
def pyInt (s : PyStr) : Option Int :=
  match pyStrip s with
  | '-' :: rest => (digitsVal rest).map (fun n => -(n : Int))
  | '+' :: rest => (digitsVal rest).map (fun n => (n : Int))
  | rest => (digitsVal rest).map (fun n => (n : Int))

/-- Model of `_is_agent_running` (agents.py lines 60-70).  `marker` is the pid
file state (none = file does not exist, otherwise its text contents); `proc`
reports the status of each process id.  Returns the boolean result together
with the marker file state afterwards.  A parse failure (ValueError), a dead
pid (ProcessLookupError) and a live but unsignalable pid (PermissionError) are
all caught by the same clause, which unlinks the marker and returns False. -/
def is_agent_running (proc : Int → ProcStatus) (marker : Option PyStr) :
    Bool × Option PyStr :=
  match marker with
  | none => (false, none)
  | some contents =>
    match pyInt contents with
    | none => (false, none)
    | some pid =>
      match proc pid with
      | .liveOwned => (true, some contents)
      | .notExists => (false, none)
      | .liveOther => (false, none)

/-- Action payload of a task, after line 76 of agents.py replaced a missing or
falsy action_data with the empty dict: the optional command, script and cwd
fields. -/
structure ActionData where
  command : Option String
  script : Option String
  cwd : Option String

/-- A task as consumed by `_execute_task` (agents.py lines 73-77): action
kind, action payload, description. -/
structure Task where
  action_type : String
  action_data : ActionData
  action_description : String

/-- Result payload variants built by `_execute_task` (in the source these are
Python dicts). -/
inductive ResultData where
  | execData (exit_code : Int) (output : PyStr)
  | errorData (msg : String)
  | scriptData (exit_code : Int) (stdout stderr : PyStr)
  | ackData (message : String) (description : String)

/-- TaskResult as returned by `_execute_task`: the result_status string
("completed" or "failed") and the result_data payload. -/
structure TaskResult where
  result_status : String
  result_data : ResultData

/-- Executor trace: the returned TaskResult, whether a subprocess was spawned,
and whether process.kill() was called on the shell subprocess. -/
structure ExecTrace where
  result : TaskResult
  spawned : Bool
  killed : Bool

/-- Output ceiling used by the shell branch (agents.py line 93). -/
def OUTPUT_LIMIT : Nat := 50000

/-- Truncation marker appended at the output ceiling (agents.py line 94). -/
def truncMarker : PyStr := "\n... [truncated] ...".toList

/-- Total character count of a list of output lines, the model of
`sum(len(l) for l in output_lines)`. -/
def totalLen (ls : List PyStr) : Nat :=
  (ls.map List.length).sum

/-- Behavior of the shell subprocess spawned at agents.py lines 84-89, as the
executor can observe it.  `lines` are the successive readline results up to
end of stream (readline blocks without any timeout, so the read loop always
consumes them all unless it kills the process first); `eofDelay` is the wall
clock time in seconds from spawn until stdout reaches end of stream when the
process is not killed earlier; `exitDelayAfterEof` is how long the process
stays alive after its stdout is closed; `exitCode` is the returncode on
natural exit. -/
structure ProcBehavior where
  lines : List PyStr
  eofDelay : Nat
  exitDelayAfterEof : Nat
  exitCode : Int

/-- Returncode of a process terminated by process.kill() (SIGKILL). -/
def KILL_RETURNCODE : Int := -9

/-- Model of the read loop at agents.py lines 90-96: append each line; once
the accumulated character count exceeds OUTPUT_LIMIT, append the truncation
marker, kill the process and break.  Returns the accumulated lines and
whether the process was killed for overflow. -/
def readLoop : List PyStr → List PyStr → List PyStr × Bool
  | [], acc => (acc, false)
  | l :: rest, acc =>
    let acc2 := acc ++ [l]
    if totalLen acc2 > OUTPUT_LIMIT then (acc2 ++ [truncMarker], true)
    else readLoop rest acc2

/-- Model of the shell branch of `_execute_task` (agents.py lines 81-107).
The read loop runs first and is not bounded by any timeout (readline blocks
until data or end of stream).  `process.wait(timeout=300)` is reached only
after the read loop ends: if the process was killed for output overflow it
reaps promptly with the kill returncode; otherwise TimeoutExpired is raised
exactly when the process remains alive more than 300 seconds past that point,
i.e. when `exitDelayAfterEof > 300`, in which case the process is killed and
the result is the timeout failure of line 105; otherwise the process exit
code decides the status (line 100). -/
def runShell (p : ProcBehavior) : TaskResult × Bool :=
  let r := readLoop p.lines []
  if r.2 then
    (⟨"failed", .execData KILL_RETURNCODE r.1.flatten⟩, true)
  else if p.exitDelayAfterEof > 300 then
    (⟨"failed", .errorData "Timed out (5 min)"⟩, true)
  else
    (⟨if p.exitCode = 0 then "completed" else "failed",
      .execData p.exitCode r.1.flatten⟩, false)

/-- Outcome of the `subprocess.run` call in the script branch (agents.py lines
114-118): it returned with the given returncode and captured streams, or the
call raised (including subprocess.TimeoutExpired, caught by the
`except Exception` clause at line 127) with the given message text. -/
inductive ScriptOutcome where
  | done (returncode : Int) (stdout stderr : PyStr)
  | exc (msg : String)

/-- Action kinds dispatched to the shell branch (agents.py line 81). -/
def SHELL_KINDS : List String := ["shell", "command", "execute"]

/-- Action kinds dispatched to the script branch (agents.py line 109). -/
def SCRIPT_KINDS : List String := ["python", "script"]

/-- Model of `_execute_task` (agents.py lines 73-135).  The behavior of a
subprocess, were one spawned, is supplied by `shellProc` and `scriptRun`;
spawning itself is assumed to succeed (a spawn failure would take the generic
except clauses, about which no claim is made).  The trace records whether any
subprocess was spawned and whether the shell subprocess was killed. -/
def execute_task (shellProc : ProcBehavior) (scriptRun : ScriptOutcome)
    (task : Task) : ExecTrace :=
  if task.action_type ∈ SHELL_KINDS then
    let r := runShell shellProc
    ⟨r.1, true, r.2⟩
  else if task.action_type ∈ SCRIPT_KINDS then
    let script := task.action_data.script.getD ""
    if script = "" then
      ⟨⟨"failed", .errorData "No script provided"⟩, false, false⟩
    else
      match scriptRun with
      | .done rc out err =>
        ⟨⟨if rc = 0 then "completed" else "failed",
          .scriptData rc (out.take 20000) (err.take 5000)⟩, true, false⟩
      | .exc msg => ⟨⟨"failed", .errorData msg⟩, true, false⟩
  else
    ⟨⟨"completed",
      .ackData ("Acknowledged task type: " ++ task.action_type)
        task.action_description⟩, false, false⟩

/-! Claim theorems. -/

/-- Queue entry used by the drain evaluation theorems. -/
def entA : Entry Nat := ⟨"epA", 0, "POST", "t0"⟩

/-- Second queue entry used by the drain evaluation theorems. -/
def entB : Entry Nat := ⟨"epB", 1, "POST", "t1"⟩

/-- C1: the claim states that a connectivity failure at the Nth entry, after
entries 1..N-1 succeeded, leaves exactly entries N..end saved, for all queue
contents including duplicates.  The code evaluated at the failing input: queue
[entA, entA], first attempt succeeds, second raises a connectivity URLError.
Because line 78 locates the failing entry with list.index, which finds the
first duplicate, the already-delivered first copy is re-queued: the saved
queue is [entA, entA] instead of the claimed [entA]. -/
theorem drain_requeues_delivered_duplicate :
    try_drain_queue (fun k => if k = 0 then .ok else .raise .urlError)
      (QueueFile.good [entA, entA]) = (QueueFile.good [entA, entA], 1) := by
  decide

/-- C2: the claim states that an HTTP 4xx error never enqueues.  The code
evaluated at the failing input: a call carrying a truthy payload that receives
HTTPError 400.  Since HTTPError subclasses URLError, the clause
`except (urllib.error.URLError, OSError)` at line 116 catches it and line 119
enqueues the request; the dedicated 4xx branch at lines 121-126 is
unreachable. -/
theorem resilient_request_enqueues_on_4xx :
    resilient_request "ep" (PyVal.pyDict [("x", PyVal.pyInt 1)]) "POST"
      (.raise (.httpError 400)) "t0" .absent =
      ⟨none, true,
        QueueFile.good [⟨"ep", PyVal.pyDict [("x", PyVal.pyInt 1)], "POST", "t0"⟩]⟩ := by
  rfl

/-- C4: the claim states that a 4xx outcome on one entry removes it and replay
continues with subsequent entries.  The code evaluated at the failing input:
queue [entA, entB], first attempt raises HTTPError 400, second would succeed.
Since HTTPError subclasses URLError, the connectivity clause at line 75
catches it, halts the replay and keeps both entries; nothing is drained.  The
claimed outcome is queue [] with both entries processed. -/
theorem drain_halts_on_http_error :
    try_drain_queue (fun k => if k = 0 then .raise (.httpError 400) else .ok)
      (QueueFile.good [entA, entB]) = (QueueFile.good [entA, entB], 0) := by
  decide

/-- Process behavior of `sleep 600` under the shell branch: no output, stdout
reaches end of stream only when the process exits after 600 seconds, exit
code 0. -/
def sleepProc : ProcBehavior := ⟨[], 600, 0, 0⟩

/-- C5: the claim states that a subprocess running longer than the 5-minute
ceiling is forcibly terminated with a timeout failure, e.g. a command sleeping
longer than the timeout.  The code evaluated at the failing input `sleep 600`:
the read loop blocks in readline (which has no timeout) until the process
exits at 600 seconds, and `process.wait(timeout=300)` is only reached
afterwards, returning immediately — so the task completes with exit code 0
after 600 seconds and is never timed out or killed. -/
theorem sleeping_command_not_timed_out :
    sleepProc.eofDelay + sleepProc.exitDelayAfterEof > 300 ∧
    execute_task sleepProc (ScriptOutcome.exc "")
      ⟨"shell", ⟨some "sleep 600", none, none⟩, "sleep for ten minutes"⟩ =
      ⟨⟨"completed", .execData 0 []⟩, true, false⟩ :=
  ⟨by decide, rfl⟩

/-- C10 counterexample: the claim states that the next enqueue or drain
overwrites an unparseable queue file.  A drain does not: `try_drain_queue`
loads the empty list from the corrupt file and returns at line 57 before ever
calling `_save_queue`, so the corrupt file stays on disk unchanged. -/
theorem drain_leaves_corrupt_file :
    try_drain_queue (fun _ => AttemptResult.ok) (QueueFile.corrupt : QueueFile Nat) =
      (QueueFile.corrupt, 0) := by
  rfl

/-- Arguments of one `enqueue` call: the three call arguments plus the
timestamp the call reads from the clock. -/
structure EnqueueCall (δ : Type) where
  endpoint : String
  data : δ
  method : String
  now : String

/-- Entry that an `enqueue` call appends. -/
def callEntry (c : EnqueueCall δ) : Entry δ :=
  ⟨c.endpoint, c.data, c.method, c.now⟩

/-- A sequence of `enqueue` calls applied to a starting queue file. -/
def enqueueAll (qf : QueueFile δ) (calls : List (EnqueueCall δ)) : QueueFile δ :=
  calls.foldl (fun f c => enqueue f c.endpoint c.data c.method c.now) qf

@[simp] theorem load_save (q : List (Entry δ)) : load_queue (save_queue q) = q := rfl

theorem load_enqueue (qf : QueueFile δ) (c : EnqueueCall δ) :
    load_queue (enqueue qf c.endpoint c.data c.method c.now) =
      (load_queue qf ++ [callEntry c]).drop
        ((load_queue qf ++ [callEntry c]).length - MAX_QUEUE_SIZE) := by
  have hce : (⟨c.endpoint, c.data, c.method, c.now⟩ : Entry δ) = callEntry c := rfl
  simp only [enqueue, hce, load_save]
  split
  · rfl
  · next h =>
    rw [Nat.sub_eq_zero_of_le (Nat.le_of_not_lt h), List.drop_zero]

set_option maxRecDepth 4000 in
theorem load_enqueueAll (calls : List (EnqueueCall δ)) :
    ∀ qf : QueueFile δ, (load_queue qf).length ≤ MAX_QUEUE_SIZE →
      load_queue (enqueueAll qf calls) =
        (load_queue qf ++ calls.map callEntry).drop
          (((load_queue qf).length + calls.length) - MAX_QUEUE_SIZE) := by
  induction calls with
  | nil =>
    intro qf hle
    simp [enqueueAll, Nat.sub_eq_zero_of_le hle]
  | cons c cs ih =>
    intro qf hle
    have hstep : enqueueAll qf (c :: cs) =
        enqueueAll (enqueue qf c.endpoint c.data c.method c.now) cs := by
      simp [enqueueAll, List.foldl_cons]
    set L := load_queue qf with hL
    set d1 := (L ++ [callEntry c]).length - MAX_QUEUE_SIZE with hd1
    have hload : load_queue (enqueue qf c.endpoint c.data c.method c.now) =
        (L ++ [callEntry c]).drop d1 := load_enqueue qf c
    have hlen1 : (L ++ [callEntry c]).length = L.length + 1 := by
      simp
    have hle2 : (load_queue (enqueue qf c.endpoint c.data c.method c.now)).length ≤
        MAX_QUEUE_SIZE := by
      rw [hload, List.length_drop, hlen1, hd1, hlen1]
      omega
    have ihx := ih (enqueue qf c.endpoint c.data c.method c.now) hle2
    rw [hstep, ihx, hload]
    have hd1le : d1 ≤ (L ++ [callEntry c]).length := by
      rw [hd1]; omega
    rw [List.length_drop, ← List.drop_append_of_le_length hd1le, List.drop_drop,
      List.map_cons]
    have hassoc : L ++ callEntry c :: cs.map callEntry =
        (L ++ [callEntry c]) ++ cs.map callEntry := by
      simp
    rw [hassoc]
    congr 1
    have hd1n : d1 = L.length + 1 - MAX_QUEUE_SIZE := by rw [hd1, hlen1]
    rw [hlen1]
    simp only [List.length_cons]
    omega

/-- C3: for every sequence of enqueue operations starting from the missing (or
initially empty) queue file, the persisted queue after the sequence holds at
most MAX_QUEUE_SIZE = 500 entries, and equals exactly the most recent 500
appended entries in original FIFO order (all entries when 500 is not yet
exceeded: the drop count is then zero).  Applied to every prefix of a call
sequence, this also shows the bound holds after each individual enqueue. -/
theorem enqueue_capacity_fifo (calls : List (EnqueueCall δ)) :
    (load_queue (enqueueAll (QueueFile.absent : QueueFile δ) calls)).length ≤
      MAX_QUEUE_SIZE ∧
    load_queue (enqueueAll (QueueFile.absent : QueueFile δ) calls) =
      (calls.map callEntry).drop (calls.length - MAX_QUEUE_SIZE) := by
  have h := load_enqueueAll calls (QueueFile.absent : QueueFile δ) (by simp [load_queue])
  have hinit : load_queue (QueueFile.absent : QueueFile δ) = [] := rfl
  rw [hinit] at h
  simp only [List.nil_append, List.length_nil, Nat.zero_add] at h
  refine ⟨?_, h⟩
  rw [h, List.length_drop, List.length_map]
  omega

theorem totalLen_nil : totalLen [] = 0 := rfl

theorem totalLen_append (xs ys : List PyStr) :
    totalLen (xs ++ ys) = totalLen xs + totalLen ys := by
  simp [totalLen]

theorem totalLen_cons (l : PyStr) (rest : List PyStr) :
    totalLen (l :: rest) = l.length + totalLen rest := by
  simp [totalLen]

theorem readLoop_overflow :
    ∀ (lines acc : List PyStr), totalLen acc ≤ OUTPUT_LIMIT →
      totalLen acc + totalLen lines > OUTPUT_LIMIT →
      ∃ pre rest, lines = pre ++ rest ∧ pre ≠ [] ∧
        totalLen (acc ++ pre) > OUTPUT_LIMIT ∧
        totalLen (acc ++ pre.dropLast) ≤ OUTPUT_LIMIT ∧
        readLoop lines acc = (acc ++ pre ++ [truncMarker], true) := by
  intro lines
  induction lines with
  | nil =>
    intro acc hacc hov
    rw [totalLen_nil] at hov
    omega
  | cons l rest ih =>
    intro acc hacc hov
    rw [totalLen_cons] at hov
    by_cases h : totalLen (acc ++ [l]) > OUTPUT_LIMIT
    · refine ⟨[l], rest, rfl, by simp, h, ?_, ?_⟩
      · simpa using hacc
      · rw [readLoop, if_pos h]
    · have hacc2 : totalLen (acc ++ [l]) ≤ OUTPUT_LIMIT := Nat.le_of_not_lt h
      have hov2 : totalLen (acc ++ [l]) + totalLen rest > OUTPUT_LIMIT := by
        rw [totalLen_append, totalLen_cons, totalLen_nil] at *
        omega
      obtain ⟨pre, rest2, heq, hne, hgt, hle, hrl⟩ := ih (acc ++ [l]) hacc2 hov2
      obtain ⟨p, ps, rfl⟩ : ∃ p ps, pre = p :: ps := by
        cases pre with
        | nil => exact absurd rfl hne
        | cons p ps => exact ⟨p, ps, rfl⟩
      refine ⟨l :: p :: ps, rest2, by rw [heq]; rfl, by simp, ?_, ?_, ?_⟩
      · have : acc ++ l :: p :: ps = (acc ++ [l]) ++ p :: ps := by simp
        rw [this]; exact hgt
      · have : acc ++ (l :: p :: ps).dropLast = (acc ++ [l]) ++ (p :: ps).dropLast := by
          simp [List.dropLast]
        rw [this]; exact hle
      · rw [readLoop, if_neg h, hrl]
        simp [List.append_assoc]

/-- C6: for every shell-kind task whose subprocess emits more than
OUTPUT_LIMIT = 50000 characters of merged output, the executor kills the
process, and the output of the returned TaskResult is the flattening of a
minimal line prefix whose total length exceeds the ceiling (accumulation
stopped at the first line pushing the total over the limit) followed by the
truncation marker — in particular the output ends with the marker. -/
theorem shell_output_truncation (p : ProcBehavior) (s : ScriptOutcome) (t : Task)
    (hk : t.action_type ∈ SHELL_KINDS) (hov : totalLen p.lines > OUTPUT_LIMIT) :
    (execute_task p s t).killed = true ∧
    ∃ pre rest, p.lines = pre ++ rest ∧
      totalLen pre > OUTPUT_LIMIT ∧
      totalLen pre.dropLast ≤ OUTPUT_LIMIT ∧
      (execute_task p s t).result =
        ⟨"failed", .execData KILL_RETURNCODE (pre.flatten ++ truncMarker)⟩ := by
  obtain ⟨pre, rest, heq, hne, hgt, hle, hrl⟩ :=
    readLoop_overflow p.lines [] (by rw [totalLen_nil]; exact Nat.zero_le _)
      (by rw [totalLen_nil]; omega)
  rw [List.nil_append] at hgt hle hrl
  have hexec : execute_task p s t = ⟨(runShell p).1, true, (runShell p).2⟩ := by
    unfold execute_task
    rw [if_pos hk]
  have hrun : runShell p = (⟨"failed", .execData KILL_RETURNCODE (pre.flatten ++ truncMarker)⟩, true) := by
    unfold runShell
    rw [hrl]
    simp
  refine ⟨?_, pre, rest, heq, hgt, hle, ?_⟩
  · rw [hexec, hrun]
  · rw [hexec, hrun]

/-- C6 witness: a single emitted line of 50001 characters triggers the
truncation path. -/
theorem shell_output_truncation_witness :
    ("shell" ∈ SHELL_KINDS) ∧
    totalLen [List.replicate 50001 'a'] > OUTPUT_LIMIT ∧
    ((execute_task ⟨[List.replicate 50001 'a'], 0, 0, 0⟩ (ScriptOutcome.exc "")
        ⟨"shell", ⟨some "yes", none, none⟩, "spam output"⟩).killed = true ∧
      ∃ pre rest, ([List.replicate 50001 'a'] : List PyStr) = pre ++ rest ∧
        totalLen pre > OUTPUT_LIMIT ∧
        totalLen pre.dropLast ≤ OUTPUT_LIMIT ∧
        (execute_task ⟨[List.replicate 50001 'a'], 0, 0, 0⟩ (ScriptOutcome.exc "")
            ⟨"shell", ⟨some "yes", none, none⟩, "spam output"⟩).result =
          ⟨"failed", .execData KILL_RETURNCODE (pre.flatten ++ truncMarker)⟩) := by
  have h1 : ("shell" : String) ∈ SHELL_KINDS := by decide
  have h2 : totalLen [List.replicate 50001 'a'] > OUTPUT_LIMIT := by
    rw [totalLen_cons, totalLen_nil, List.length_replicate]
    decide
  exact ⟨h1, h2,
    shell_output_truncation ⟨[List.replicate 50001 'a'], 0, 0, 0⟩ (ScriptOutcome.exc "")
      ⟨"shell", ⟨some "yes", none, none⟩, "spam output"⟩ h1 h2⟩

/-- C7: every task whose action kind is neither a shell kind (shell, command,
execute) nor a script kind (python, script) is acknowledged immediately: no
subprocess is spawned, nothing is killed, and the result is completed with an
acknowledgment payload naming the action kind and the description.  The
executor model is a total function, so no exception escapes on this path. -/
theorem unknown_kind_acknowledged (p : ProcBehavior) (s : ScriptOutcome) (t : Task)
    (h1 : t.action_type ∉ SHELL_KINDS) (h2 : t.action_type ∉ SCRIPT_KINDS) :
    execute_task p s t =
      ⟨⟨"completed",
        .ackData ("Acknowledged task type: " ++ t.action_type) t.action_description⟩,
        false, false⟩ := by
  unfold execute_task
  rw [if_neg h1, if_neg h2]

/-- C7 witness: a task of kind noop is acknowledged without any subprocess. -/
theorem unknown_kind_acknowledged_witness :
    ("noop" ∉ SHELL_KINDS) ∧ ("noop" ∉ SCRIPT_KINDS) ∧
    execute_task ⟨[], 0, 0, 0⟩ (ScriptOutcome.exc "")
        ⟨"noop", ⟨none, none, none⟩, "do nothing"⟩ =
      ⟨⟨"completed", .ackData ("Acknowledged task type: " ++ "noop") "do nothing"⟩,
        false, false⟩ :=
  ⟨by decide, by decide,
    unknown_kind_acknowledged ⟨[], 0, 0, 0⟩ (ScriptOutcome.exc "")
      ⟨"noop", ⟨none, none, none⟩, "do nothing"⟩ (by decide) (by decide)⟩

/-- Process-status oracle with a single live process, id 42, owned by another
user: signalling it raises PermissionError. -/
def permOracle : Int → ProcStatus :=
  fun pid => if pid = 42 then .liveOther else .notExists

/-- C8 counterexample: the claim states the check returns false and removes
the marker only when the recorded pid does not refer to a live process.  With
a marker recording pid 42 and a live pid-42 process owned by another user,
os.kill(42, 0) raises PermissionError, which the except clause at line 68
treats like a dead process: the check returns false and deletes the marker of
a live process. -/
theorem liveness_false_for_live_process :
    permOracle 42 ≠ ProcStatus.notExists ∧
    is_agent_running permOracle (some "42".toList) = (false, none) := by
  constructor
  · decide
  · rfl

/-- C8 amended: for a marker whose contents parse as pid `pid`, the check
returns true and keeps the marker exactly when a live process with that id
exists and is signalable by the current user; when the pid is dead or
signalling it is denied (PermissionError), it returns false and removes the
marker; with no marker file it returns false. -/
theorem liveness_check_amended (proc : Int → ProcStatus) (s : PyStr) (pid : Int)
    (hp : pyInt s = some pid) :
    is_agent_running proc none = (false, none) ∧
    (proc pid = .liveOwned → is_agent_running proc (some s) = (true, some s)) ∧
    (proc pid ≠ .liveOwned → is_agent_running proc (some s) = (false, none)) := by
  refine ⟨rfl, ?_, ?_⟩
  · intro h
    simp [is_agent_running, hp, h]
  · intro h
    cases hps : proc pid with
    | liveOwned => exact absurd hps h
    | notExists => simp [is_agent_running, hp, hps]
    | liveOther => simp [is_agent_running, hp, hps]

/-- C8 witness: a marker recording pid 7 with a live owned process 7 yields
true with the marker kept. -/
theorem liveness_check_amended_witness :
    pyInt "7".toList = some 7 ∧
    is_agent_running (fun _ => ProcStatus.liveOwned) (some "7".toList) =
      (true, some "7".toList) :=
  ⟨by decide,
    (liveness_check_amended (fun _ => ProcStatus.liveOwned) "7".toList 7
      (by decide)).2.1 rfl⟩

/-- C9: whenever the data argument is present but falsy (empty dict, empty
list, zero, empty string, False), `resilient_request` sends the request
without a body and leaves the queue file untouched for every possible outcome
of the attempt — in particular it never enqueues on a network-level failure or
a 5xx response: a present-but-empty payload is treated exactly like no
payload. -/
theorem falsy_payload_never_queued (endpoint method now : String) (data : PyVal)
    (attempt : ReqAttempt) (qf : QueueFile PyVal)
    (_hpresent : data ≠ PyVal.pyNone) (hfalsy : data.truthy = false) :
    (resilient_request endpoint data method attempt now qf).bodySent = false ∧
    (resilient_request endpoint data method attempt now qf).queueAfter = qf := by
  cases attempt with
  | ok r => exact ⟨hfalsy, rfl⟩
  | raise e =>
    cases e <;>
      simp [resilient_request, PyExc.isURLErrorOrOSError, PyExc.isHTTPError, hfalsy]

/-- C9 witness: an empty dict payload with a connectivity failure sends no
body and queues nothing. -/
theorem falsy_payload_never_queued_witness :
    (PyVal.pyDict [] ≠ PyVal.pyNone) ∧ (PyVal.pyDict []).truthy = false ∧
    ((resilient_request "ep" (PyVal.pyDict []) "POST" (.raise .urlError) "t"
        .absent).bodySent = false ∧
      (resilient_request "ep" (PyVal.pyDict []) "POST" (.raise .urlError) "t"
        .absent).queueAfter = .absent) :=
  ⟨fun h => PyVal.noConfusion h, rfl,
    falsy_payload_never_queued "ep" "POST" "t" (PyVal.pyDict [])
      (.raise .urlError) .absent (fun h => PyVal.noConfusion h) rfl⟩

/-- C10 amended: `_load_queue` yields the empty list for an unparseable queue
file, the next enqueue overwrites the file with just the new entry (all
previously queued requests silently discarded), while a drain on an
unparseable file is a no-op: it loads the empty list and returns before
saving, leaving the corrupt file in place — in both cases no error is
surfaced and the old entries are never replayed. -/
theorem corrupt_file_discards_entries {δ : Type} [DecidableEq δ] :
    load_queue (QueueFile.corrupt : QueueFile δ) = [] ∧
    (∀ (endpoint : String) (data : δ) (method now : String),
      enqueue (QueueFile.corrupt : QueueFile δ) endpoint data method now =
        QueueFile.good [⟨endpoint, data, method, now⟩]) ∧
    (∀ oracle, try_drain_queue oracle (QueueFile.corrupt : QueueFile δ) =
      (QueueFile.corrupt, 0)) :=
  ⟨rfl, fun _ _ _ _ => rfl, fun _ => rfl⟩

end PriorityLiving
